import Mathlib

/-!
Shallow embedding of the schema-evolution core of realm-core
(src/realm/object-store/object_store.cpp and
src/realm/object-store/sync/async_open_task.cpp), together with theorems
settling the frozen claims about it.

Machine integers are modelled as Nat/Int with explicit reduction modulo
2^64 where the C++ converts between uint64_t and int64_t.  Fallible code
returns Except.  Each definition cites the source lines it embeds.
-/

/-- Table types of an object schema (ObjectSchema::ObjectType; the payload of
ChangeTableType is formatted into error messages, so only its identity
matters here). -/
inductive TableType
  | topLevel
  | topLevelAsymmetric
  | embedded
deriving DecidableEq, Repr

/-- Index kinds (IndexType in the source; AddIndex carries one). -/
inductive IndexKind
  | general
  | fulltext
deriving DecidableEq, Repr

/-- SchemaChange (spec section 3): a tagged sum with exactly twelve variants.
Payloads in the source are pointers into ObjectSchema/Property values; the
embedding carries the fields the visitors of object_store.cpp actually read:
object names, property names, the type strings used by error messages, the
table types, and for ChangePrimaryKey the previous primary key of the object
together with the (optional) new primary-key property name. -/
inductive SchemaChange
  | addTable (object : String)
  | removeTable (object : String)
  | changeTableType (object : String) (oldType newType : TableType)
  | addInitialProperties (object : String)
  | addProperty (object property : String)
  | removeProperty (object property : String)
  | changePropertyType (object newProperty oldTypeString newTypeString : String)
  | makePropertyNullable (object property : String)
  | makePropertyRequired (object property : String)
  | changePrimaryKey (object objectPrimaryKey : String) (property : Option String)
  | addIndex (object property : String) (kind : IndexKind)
  | removeIndex (object property : String)
deriving DecidableEq, Repr

/-- Error codes thrown by object_store.cpp (ErrorCodes in the source; the
exception classes at the bottom of the file each carry one of these). -/
inductive ErrorCode
  | SchemaMismatch
  | InvalidSchemaChange
  | NoSuchTable
  | InvalidProperty
  | IllegalOperation
  | InvalidSchemaVersion
  | SchemaValidationFailed
  | SyncSchemaMigrationError
deriving DecidableEq, Repr

/-- A thrown schema error: its code and the accumulated per-change messages
(append_errors in object_store.cpp joins them under a mode-specific
headline; the list of messages is what the claims are about). -/
structure SchemaError where
  code : ErrorCode
  messages : List String
deriving DecidableEq, Repr

/-- Rendering of a table type into error messages.  Modelled from the spec:
the ostream formatting of ObjectSchema::ObjectType is not part of src/,
and only the fact that ChangeTableType produces exactly one message
matters to the claims. -/
def TableType.render : TableType → String
  | .topLevel => "top-level"
  | .topLevelAsymmetric => "asymmetric"
  | .embedded => "embedded"

/-- SchemaDifferenceExplainer (object_store.cpp:268-341): the per-variant
error messages.  RemoveTable and AddInitialProperties produce nothing; every
other variant produces exactly one message. -/
def explainerVisit : SchemaChange → List String
  | .addTable o => ["Class \x27" ++ o ++ "\x27 has been added."]
  | .removeTable _ => []
  | .changeTableType o oldT newT =>
      ["Class \x27" ++ o ++ "\x27 has been changed from " ++ oldT.render ++ " to " ++
        newT.render ++ "."]
  | .addInitialProperties _ => []
  | .addProperty o p => ["Property \x27" ++ o ++ "." ++ p ++ "\x27 has been added."]
  | .removeProperty o p => ["Property \x27" ++ o ++ "." ++ p ++ "\x27 has been removed."]
  | .changePropertyType o newP oldS newS =>
      ["Property \x27" ++ o ++ "." ++ newP ++ "\x27 has been changed from \x27" ++ oldS ++
        "\x27 to \x27" ++ newS ++ "\x27."]
  | .makePropertyNullable o p => ["Property \x27" ++ o ++ "." ++ p ++ "\x27 has been made optional."]
  | .makePropertyRequired o p => ["Property \x27" ++ o ++ "." ++ p ++ "\x27 has been made required."]
  | .changePrimaryKey o pk prop =>
      match prop with
      | some p =>
        if pk ≠ "" then
          ["Primary Key for class \x27" ++ o ++ "\x27 has changed from \x27" ++ pk ++
            "\x27 to \x27" ++ p ++ "\x27."]
        else
          ["Primary Key for class \x27" ++ o ++ "\x27 has been added."]
      | none => ["Primary Key for class \x27" ++ o ++ "\x27 has been removed."]
  | .addIndex o p _ => ["Property \x27" ++ o ++ "." ++ p ++ "\x27 has been made indexed."]
  | .removeIndex o p => ["Property \x27" ++ o ++ "." ++ p ++ "\x27 has been made unindexed."]

/-- Visitor body of ObjectStore::needs_migration (object_store.cpp:379-436). -/
def needsMigrationVisit : SchemaChange → Bool
  | .addIndex .. => false
  | .addInitialProperties _ => false
  | .addProperty .. => true
  | .addTable _ => false
  | .removeTable _ => false
  | .changeTableType .. => true
  | .changePrimaryKey .. => true
  | .changePropertyType .. => true
  | .makePropertyNullable .. => true
  | .makePropertyRequired .. => true
  | .removeIndex .. => false
  | .removeProperty .. => true

/-- ObjectStore::needs_migration (object_store.cpp:379-436): std::any_of over
the change list with the visitor above. -/
def needs_migration (changes : List SchemaChange) : Bool :=
  changes.any needsMigrationVisit

/-- ObjectStore::verify_no_changes_required (object_store.cpp:438-441):
verify_no_errors with the plain SchemaDifferenceExplainer, throwing
SchemaMismatchException (code SchemaMismatch, object_store.cpp:1118-1125)
when any message accumulated. -/
def verify_no_changes_required (changes : List SchemaChange) : Except SchemaError Unit :=
  let errs := changes.flatMap explainerVisit
  if errs.isEmpty then .ok () else .error ⟨.SchemaMismatch, errs⟩

/-- Per-change messages of the Verifier in
ObjectStore::verify_valid_additive_changes (object_store.cpp:459-493): the
six overridden handlers produce no message, everything else falls through to
SchemaDifferenceExplainer (where RemoveTable also produces nothing). -/
def additiveVisitErrors : SchemaChange → List String
  | .addTable _ => []
  | .addInitialProperties _ => []
  | .addProperty .. => []
  | .removeProperty .. => []
  | .addIndex .. => []
  | .removeIndex .. => []
  | c => explainerVisit c

/-- ObjectStore::verify_valid_additive_changes (object_store.cpp:459-493):
collects messages, records the index_changes / other_changes flags set by
the overridden handlers, throws InvalidAdditiveSchemaChangeException (code
InvalidSchemaChange, object_store.cpp:1137-1146) when any message
accumulated, and otherwise returns
other_changes OR (index_changes AND update_indexes). -/
def verify_valid_additive_changes (changes : List SchemaChange) (update_indexes : Bool) :
    Except SchemaError Bool :=
  let errs := changes.flatMap additiveVisitErrors
  let index_changes := changes.any fun c =>
    match c with
    | .addIndex .. => true
    | .removeIndex .. => true
    | _ => false
  let other_changes := changes.any fun c =>
    match c with
    | .addTable _ => true
    | .addInitialProperties _ => true
    | .addProperty .. => true
    | _ => false
  if errs.isEmpty then .ok (other_changes || (index_changes && update_indexes))
  else .error ⟨.InvalidSchemaChange, errs⟩

/-- Claim-side predicate (spec section 4.3): the seven migration-requiring
variants AddProperty, RemoveProperty, ChangeTableType, ChangePrimaryKey,
ChangePropertyType, MakePropertyNullable, MakePropertyRequired. -/
def migrationRequiringVariant : SchemaChange → Bool
  | .addProperty .. => true
  | .removeProperty .. => true
  | .changeTableType .. => true
  | .changePrimaryKey .. => true
  | .changePropertyType .. => true
  | .makePropertyNullable .. => true
  | .makePropertyRequired .. => true
  | _ => false

theorem needsMigrationVisit_eq (c : SchemaChange) :
    needsMigrationVisit c = migrationRequiringVariant c := by
  cases c <;> rfl

/-- C2: needs_migration(changes) returns true iff at least one element of the
list is one of the seven variants AddProperty, RemoveProperty,
ChangeTableType, ChangePrimaryKey, ChangePropertyType, MakePropertyNullable,
MakePropertyRequired; AddTable, RemoveTable, AddInitialProperties, AddIndex
and RemoveIndex never make it true. -/
theorem C2_needs_migration_iff (changes : List SchemaChange) :
    needs_migration changes = true ↔
      ∃ c ∈ changes, migrationRequiringVariant c = true := by
  unfold needs_migration
  rw [List.any_eq_true]
  constructor
  · rintro ⟨c, hc, h⟩
    exact ⟨c, hc, by rwa [needsMigrationVisit_eq] at h⟩
  · rintro ⟨c, hc, h⟩
    exact ⟨c, hc, by rwa [needsMigrationVisit_eq]⟩

/-- View of a verifier result keeping the error code and the number of
accumulated per-change messages. -/
def errorView (r : Except SchemaError Unit) : Option (ErrorCode × Nat) :=
  match r with
  | .ok _ => none
  | .error e => some (e.code, e.messages.length)

/-- Claim-side predicate: the variants the SchemaDifferenceExplainer reports
(everything except RemoveTable and AddInitialProperties). -/
def reportedChange : SchemaChange → Bool
  | .removeTable _ => false
  | .addInitialProperties _ => false
  | _ => true

theorem explainerVisit_length (c : SchemaChange) :
    (explainerVisit c).length = if reportedChange c then 1 else 0 := by
  cases c with
  | changePrimaryKey o pk prop =>
    cases prop with
    | none => rfl
    | some p =>
      show (if pk ≠ "" then _ else _ : List String).length = _
      split <;> rfl
  | _ => rfl

theorem flatMap_length_countP (f : SchemaChange → List String) (p : SchemaChange → Bool)
    (h : ∀ c, (f c).length = if p c then 1 else 0) (l : List SchemaChange) :
    (l.flatMap f).length = l.countP p := by
  induction l with
  | nil => rfl
  | cons c t ih =>
    rw [List.flatMap_cons, List.length_append, ih, List.countP_cons, h c]
    split <;> omega

/-- C3 (corrected): verify_no_changes_required throws a SchemaMismatch error
iff the change list contains at least one change other than RemoveTable and
AddInitialProperties, and the thrown error carries exactly one reported
mismatch for each such change; RemoveTable and AddInitialProperties are
silently allowed and report nothing. -/
theorem C3_verify_no_changes_required_reports (changes : List SchemaChange) :
    errorView (verify_no_changes_required changes) =
      if changes.countP reportedChange = 0 then none
      else some (ErrorCode.SchemaMismatch, changes.countP reportedChange) := by
  have hlen := flatMap_length_countP explainerVisit reportedChange explainerVisit_length changes
  unfold verify_no_changes_required errorView
  rcases he : changes.flatMap explainerVisit with _ | ⟨m, ms⟩
  · have : changes.countP reportedChange = 0 := by rw [← hlen, he]; rfl
    simp [this]
  · have : changes.countP reportedChange ≠ 0 := by
      rw [← hlen, he]; simp
    simp [this, ← hlen, he]

/-- C3 counterexample: a non-empty change list consisting of one RemoveTable
produces no error at all, refuting the claim that verify_no_changes_required
throws whenever the list is non-empty and reports every change. -/
theorem C3_counterexample :
    ([SchemaChange.removeTable "T"] ≠ ([] : List SchemaChange)) ∧
      verify_no_changes_required [SchemaChange.removeTable "T"] = Except.ok () :=
  ⟨by decide, rfl⟩

/-- View of an additive-verifier result keeping the returned Bool on success
and the error code with the number of messages on failure. -/
def additiveView (r : Except SchemaError Bool) : Bool ⊕ (ErrorCode × Nat) :=
  match r with
  | .ok b => .inl b
  | .error e => .inr (e.code, e.messages.length)

/-- Claim-side predicate: the variants verify_valid_additive_changes reports
as errors (all variants except AddTable, AddInitialProperties, AddProperty,
RemoveProperty, AddIndex, RemoveIndex and the silently dropped RemoveTable). -/
def additiveIllegalChange : SchemaChange → Bool
  | .changeTableType .. => true
  | .changePrimaryKey .. => true
  | .changePropertyType .. => true
  | .makePropertyNullable .. => true
  | .makePropertyRequired .. => true
  | _ => false

/-- Claim-side predicate: the changes that set the other_changes flag of
verify_valid_additive_changes. -/
def additiveGrowthChange : SchemaChange → Bool
  | .addTable _ => true
  | .addInitialProperties _ => true
  | .addProperty .. => true
  | _ => false

/-- Claim-side predicate: the changes that set the index_changes flag of
verify_valid_additive_changes. -/
def indexOnlyChange : SchemaChange → Bool
  | .addIndex .. => true
  | .removeIndex .. => true
  | _ => false

theorem additiveVisitErrors_length (c : SchemaChange) :
    (additiveVisitErrors c).length = if additiveIllegalChange c then 1 else 0 := by
  cases c with
  | changePrimaryKey o pk prop =>
    cases prop with
    | none => rfl
    | some p =>
      show (if pk ≠ "" then _ else _ : List String).length = _
      split <;> rfl
  | _ => rfl

/-- C4 (corrected): verify_valid_additive_changes throws an
InvalidSchemaChange error carrying one message for every change among
ChangeTableType, ChangePrimaryKey, ChangePropertyType, MakePropertyNullable
and MakePropertyRequired; RemoveTable is silently dropped and never
reported.  When no such change is present it returns true iff the list
contains an AddTable, AddInitialProperties or AddProperty change, or
update_indexes is true and the list contains an AddIndex or RemoveIndex
change; in particular a list of only RemoveProperty and RemoveTable changes
makes it return false. -/
theorem C4_verify_valid_additive_changes_spec (changes : List SchemaChange)
    (update_indexes : Bool) :
    additiveView (verify_valid_additive_changes changes update_indexes) =
      if changes.countP additiveIllegalChange = 0 then
        Sum.inl (changes.any additiveGrowthChange ||
          (changes.any indexOnlyChange && update_indexes))
      else Sum.inr (ErrorCode.InvalidSchemaChange, changes.countP additiveIllegalChange) := by
  have hlen := flatMap_length_countP additiveVisitErrors additiveIllegalChange
    additiveVisitErrors_length changes
  have hidx : (changes.any fun c =>
      match c with
      | .addIndex .. => true
      | .removeIndex .. => true
      | _ => false) = changes.any indexOnlyChange := by
    congr 1
  have hoth : (changes.any fun c =>
      match c with
      | .addTable _ => true
      | .addInitialProperties _ => true
      | .addProperty .. => true
      | _ => false) = changes.any additiveGrowthChange := by
    congr 1
  unfold verify_valid_additive_changes additiveView
  rcases he : changes.flatMap additiveVisitErrors with _ | ⟨m, ms⟩
  · have : changes.countP additiveIllegalChange = 0 := by rw [← hlen, he]; rfl
    simp [this, hidx, hoth]
  · have : changes.countP additiveIllegalChange ≠ 0 := by
      rw [← hlen, he]; simp
    simp [this, ← hlen, he]

/-- C4 counterexample: a list consisting of one RemoveTable change, which is
outside the set of six additive variants named by the claim, does not throw;
it returns false, refuting the claim that every change outside that set is
listed in an InvalidSchemaChange error. -/
theorem C4_counterexample :
    verify_valid_additive_changes [SchemaChange.removeTable "T"] true = Except.ok false :=
  rfl

/-- ObjectStore::NotVersioned (object_store.hpp): uint64_t max, the sentinel
for a never-initialised schema version. -/
def NotVersioned : Nat := 2 ^ 64 - 1

/-- Conversion of a uint64_t value into the int64_t cell it is stored in
(two-complement reinterpretation, as in set with an int64_t column). -/
def toInt64 (v : Nat) : Int :=
  if v % 2 ^ 64 < 2 ^ 63 then (v % 2 ^ 64 : Int) else (v % 2 ^ 64 : Int) - 2 ^ 64

/-- Conversion of an int64_t cell back into the uint64_t the getter returns. -/
def toUInt64Nat (i : Int) : Nat := (i % 2 ^ 64).toNat

/-- View of the metadata table: its column count and the int64_t version cell
of row 0 (the table has one column named version and one row,
object_store.cpp:52-61). -/
structure MetadataTable where
  columnCount : Nat
  versionRow : Int
deriving DecidableEq, Repr

/-- View of a Group for the metadata-store claims: whether the metadata table
exists and, if so, its contents. -/
structure VGroup where
  metadata : Option MetadataTable
deriving DecidableEq, Repr

/-- create_metadata_tables (object_store.cpp:52-61): get_or_add_table the
metadata table; if it has zero columns, add the version column and create the
single row holding int64_t(NotVersioned). -/
def create_metadata_tables (g : VGroup) : VGroup :=
  let t : MetadataTable :=
    match g.metadata with
    | none => { columnCount := 0, versionRow := 0 }
    | some t => t
  if t.columnCount = 0 then
    { metadata := some { columnCount := 1, versionRow := toInt64 NotVersioned } }
  else g

/-- Anonymous-namespace set_schema_version (object_store.cpp:63-66): write
int64_t(version) into row 0 of the metadata table.  Its caller has always
just run create_metadata_tables, so the table exists; a missing table is
modelled as a no-op in place of the null dereference the C++ would make. -/
def set_schema_version_row (g : VGroup) (version : Nat) : VGroup :=
  match g.metadata with
  | none => g
  | some t => { metadata := some { t with versionRow := toInt64 version } }

/-- ObjectStore::set_schema_version (object_store.cpp:227-231):
create_metadata_tables then the row write. -/
def set_schema_version (g : VGroup) (version : Nat) : VGroup :=
  set_schema_version_row (create_metadata_tables g) version

/-- ObjectStore::get_schema_version (object_store.cpp:233-240): NotVersioned
when the metadata table is absent or has zero columns, otherwise the int64_t
cell of row 0 converted back to uint64_t. -/
def get_schema_version (g : VGroup) : Nat :=
  match g.metadata with
  | none => NotVersioned
  | some t => if t.columnCount = 0 then NotVersioned else toUInt64Nat t.versionRow

theorem toUInt64Nat_toInt64 (v : Nat) (h : v < 2 ^ 64) : toUInt64Nat (toInt64 v) = v := by
  simp only [toInt64, toUInt64Nat]
  split <;> omega

/-- C10: ObjectStore::set_schema_version creates the metadata table on demand
before writing, so on every group and every 64-bit version v, setting and
then reading the schema version returns v; and on a group where the metadata
table is absent or has zero columns, get_schema_version returns the
NotVersioned sentinel (get_schema_version is a pure function of the group,
so the group is not modified). -/
theorem C10_schema_version_roundtrip :
    (∀ (g : VGroup) (v : Nat), v < 2 ^ 64 →
      get_schema_version (set_schema_version g v) = v) ∧
    (∀ g : VGroup,
      (g.metadata = none ∨ ∃ t, g.metadata = some t ∧ t.columnCount = 0) →
      get_schema_version g = NotVersioned) := by
  constructor
  · intro g v hv
    rcases g with ⟨_ | t⟩
    · simpa [set_schema_version, set_schema_version_row, create_metadata_tables,
        get_schema_version] using toUInt64Nat_toInt64 v hv
    · by_cases hc : t.columnCount = 0 <;>
        simpa [set_schema_version, set_schema_version_row, create_metadata_tables,
          get_schema_version, hc] using toUInt64Nat_toInt64 v hv
  · intro g hg
    rcases hg with h | ⟨t, ht, hc⟩
    · simp [get_schema_version, h]
    · simp [get_schema_version, ht, hc]

/-- Witness for C10 at concrete inputs: a group with no metadata table at
all, version 7. -/
theorem C10_witness :
    get_schema_version (set_schema_version ⟨none⟩ 7) = 7 ∧
      get_schema_version ⟨none⟩ = NotVersioned :=
  ⟨C10_schema_version_roundtrip.1 ⟨none⟩ 7 (by norm_num),
    C10_schema_version_roundtrip.2 ⟨none⟩ (Or.inl rfl)⟩

/-- SchemaMode (spec section 3): the eight policies. -/
inductive SchemaMode
  | Automatic
  | Immutable
  | ReadOnly
  | SoftResetFile
  | HardResetFile
  | AdditiveDiscovered
  | AdditiveExplicit
  | Manual
deriving DecidableEq, Repr

/-- Projection of ObjectStore::apply_schema_changes (object_store.cpp:867-961)
counting the calls to ObjectStore::set_schema_version on a run that returns
normally.  The version row is written only by ObjectStore::set_schema_version
(lines 900, 910, 931 and 959); none of the verifiers, applicators or
set_schema_keys writes it, so the count depends only on the driver's branch
structure: the additive branch writes iff
schema_version < target_schema_version, or schema_version is NotVersioned,
or set_schema_version_on_version_decrease is set; the NotVersioned branch and
the Manual branch write unconditionally; the same-version branch returns
without writing; both migration branches (with and without a migration
function) fall through to the single write at line 959. -/
def versionWriteCount (mode : SchemaMode) (schema_version target_schema_version : Nat)
    (set_schema_version_on_version_decrease : Bool) : Nat :=
  if mode = .AdditiveDiscovered ∨ mode = .AdditiveExplicit then
    if schema_version < target_schema_version ∨ schema_version = NotVersioned ∨
        set_schema_version_on_version_decrease = true then 1 else 0
  else if schema_version = NotVersioned then 1
  else if mode = .Manual then 1
  else if schema_version = target_schema_version then 0
  else 1

/-- Claim-side predicate: the two additive modes. -/
def isAdditiveMode : SchemaMode → Bool
  | .AdditiveDiscovered => true
  | .AdditiveExplicit => true
  | _ => false

/-- C1 (corrected): on every normally returning run of apply_schema_changes
the schema-version row is written at most once, and exactly once on the
NotVersioned-initialisation path, the Manual path and both migration
branches; in the additive modes it is written exactly once iff
schema_version < target_schema_version, or schema_version is NotVersioned,
or set_schema_version_on_version_decrease is set, and otherwise not at all;
on the same-version non-migration path it is not written at all. -/
theorem C1_version_write_count (mode : SchemaMode) (v t : Nat) (flag : Bool) :
    versionWriteCount mode v t flag ≤ 1 ∧
    (isAdditiveMode mode = true →
      versionWriteCount mode v t flag =
        if v < t ∨ v = NotVersioned ∨ flag = true then 1 else 0) ∧
    (isAdditiveMode mode = false → v = NotVersioned →
      versionWriteCount mode v t flag = 1) ∧
    (isAdditiveMode mode = false → v ≠ NotVersioned → mode = SchemaMode.Manual →
      versionWriteCount mode v t flag = 1) ∧
    (isAdditiveMode mode = false → v ≠ NotVersioned → mode ≠ SchemaMode.Manual → v = t →
      versionWriteCount mode v t flag = 0) ∧
    (isAdditiveMode mode = false → v ≠ NotVersioned → mode ≠ SchemaMode.Manual → v ≠ t →
      versionWriteCount mode v t flag = 1) := by
  have hle : versionWriteCount mode v t flag ≤ 1 := by
    unfold versionWriteCount
    split_ifs <;> omega
  refine ⟨hle, ?_, ?_, ?_, ?_, ?_⟩
  · intro h
    rcases mode <;> simp_all [isAdditiveMode, versionWriteCount]
  · intro h hv
    rcases mode <;> simp_all [isAdditiveMode, versionWriteCount]
  · intro h hv hm
    subst hm
    simp_all [isAdditiveMode, versionWriteCount]
  · intro h hv hm ht
    rcases mode <;> simp_all [isAdditiveMode, versionWriteCount]
  · intro h hv hm ht
    rcases mode <;> simp_all [isAdditiveMode, versionWriteCount]

/-- Witness for C1 at concrete inputs: an additive run that writes once and a
same-version Automatic run that does not write. -/
theorem C1_witness :
    versionWriteCount SchemaMode.AdditiveDiscovered 3 7 false = 1 ∧
      versionWriteCount SchemaMode.Immutable 2 2 false = 0 := by
  constructor
  · rw [(C1_version_write_count SchemaMode.AdditiveDiscovered 3 7 false).2.1 rfl]
    norm_num
  · exact (C1_version_write_count SchemaMode.Immutable 2 2 false).2.2.2.2.1 rfl
      (by decide) (by decide) rfl

/-- C1 counterexample: in Automatic mode with schema_version equal to
target_schema_version (and not NotVersioned), apply_schema_changes runs
apply_non_migration_changes and returns without ever writing the version
row, refuting the claim that every control path writes it exactly once. -/
theorem C1_counterexample :
    versionWriteCount SchemaMode.Automatic 5 5 false = 0 ∧ (5 : Nat) ≠ NotVersioned := by
  constructor
  · rfl
  · decide

/-- Base scalar kinds of PropertyType (spec section 3). -/
inductive BaseType
  | int
  | bool
  | float
  | double
  | string
  | date
  | data
  | objectId
  | decimal
  | uuid
  | mixed
  | object
  | linkingObjects
deriving DecidableEq, Repr

/-- A property type: base kind plus the Nullable flag bit.  The collection
flag bits are not read by any code the claims depend on and are omitted. -/
structure PropType where
  base : BaseType
  nullable : Bool
deriving DecidableEq, Repr

/-- A column of an on-disk table: its name, its ColKey (an opaque storage
handle, modelled as a Nat), its type and, for link columns, the target
object type. -/
structure Column where
  name : String
  key : Nat
  type : PropType
  objectType : String
deriving DecidableEq, Repr

/-- An on-disk table: its TableKey, its columns, and its number of objects
(all that Table::is_empty inspects). -/
structure Table where
  key : Nat
  cols : List Column
  rows : Nat
deriving DecidableEq, Repr

/-- A Group: its tables keyed by physical table name, in table-key order. -/
structure RGroup where
  tables : List (String × Table)
deriving DecidableEq, Repr

/-- Group::get_table by name. -/
def RGroup.get_table (g : RGroup) (name : String) : Option Table :=
  (g.tables.find? fun nt => nt.1 == name).map (·.2)

/-- Replacement of the table stored under a name (the C++ mutates the table
in place through a TableRef). -/
def RGroup.update_table (g : RGroup) (name : String) (t : Table) : RGroup :=
  ⟨g.tables.map fun nt => if nt.1 == name then (name, t) else nt⟩

/-- ObjectStore::table_name_for_object_type (object_store.cpp:250-253). -/
def table_name_for_object_type (object_type : String) : String :=
  "class_" ++ object_type

/-- ObjectStore::object_type_for_table_name (object_store.cpp:242-248): the
suffix after the fixed six-character table-name marker, or the empty string.
StringData::begins_with and substr are realised over the character list so
that concrete witnesses evaluate inside the kernel. -/
def object_type_for_table_name (table_name : String) : String :=
  if table_name.data.take 6 = "class_".data then String.mk (table_name.data.drop 6) else ""

/-- ObjectStore::table_for_object_type (object_store.cpp:255-259). -/
def RGroup.table_for_object_type (g : RGroup) (object_type : String) : Option Table :=
  g.get_table (table_name_for_object_type object_type)

/-- ObjectStore::schema_from_group (object_store.cpp:963-974): one entry per
table whose decoded object type is non-empty.  The ObjectSchema built from
the group (object_schema.cpp, not part of src/) is keyed by that decoded
object type; the embedding records the decoded type of each entry, which is
what claim C8 is about. -/
def schema_from_group (g : RGroup) : List String :=
  g.tables.filterMap fun nt =>
    let object_type := object_type_for_table_name nt.1
    if 0 < object_type.length then some object_type else none

/-- ObjectStore::is_empty (object_store.cpp:997-1010): tables whose decoded
object type is empty or starts with two underscores are skipped; the group
is empty iff every remaining table has no objects. -/
def is_empty (g : RGroup) : Bool :=
  g.tables.all fun nt =>
    let object_type := object_type_for_table_name nt.1
    if object_type.length = 0 ∨ object_type.data.take 2 = "__".data then true
    else nt.2.rows == 0

/-- C8 (corrected): is_empty skips a table whose decoded object type is empty
or begins with two underscores, but schema_from_group excludes only tables
whose decoded object type is empty (a table name that does not start with
the class marker, or is exactly the marker); a non-empty table named
class___X is therefore invisible to is_empty yet contributes an entry named
__X to the schema produced by schema_from_group. -/
theorem C8_internal_table_visibility (g : RGroup) :
    (∀ ot, ot ∈ schema_from_group g ↔
      ∃ nt ∈ g.tables, object_type_for_table_name nt.1 = ot ∧ 0 < ot.length) ∧
    (is_empty g = true ↔ ∀ nt ∈ g.tables,
      (object_type_for_table_name nt.1).length = 0 ∨
      (object_type_for_table_name nt.1).data.take 2 = "__".data ∨ nt.2.rows = 0) := by
  constructor
  · intro ot
    simp only [schema_from_group, List.mem_filterMap]
    constructor
    · rintro ⟨nt, hnt, hf⟩
      split at hf
      · next hlen =>
        cases hf
        exact ⟨nt, hnt, rfl, hlen⟩
      · cases hf
    · rintro ⟨nt, hnt, hot, hlen⟩
      refine ⟨nt, hnt, ?_⟩
      show (if 0 < (object_type_for_table_name nt.1).length then
        some (object_type_for_table_name nt.1) else none) = some ot
      rw [hot, if_pos hlen]
  · simp only [is_empty, List.all_eq_true]
    constructor
    · intro h nt hnt
      have hx := h nt hnt
      split at hx
      · next hc =>
        rcases hc with hc | hc
        · exact Or.inl hc
        · exact Or.inr (Or.inl hc)
      · next hc =>
        exact Or.inr (Or.inr (by simpa using hx))
    · intro h nt hnt
      show (if (object_type_for_table_name nt.1).length = 0 ∨
          (object_type_for_table_name nt.1).data.take 2 = "__".data then true
        else (nt.2.rows == 0)) = true
      split
      · rfl
      · next hc =>
        rcases h nt hnt with hc1 | hc1 | hc1
        · exact absurd (Or.inl hc1) hc
        · exact absurd (Or.inr hc1) hc
        · simp [hc1]

/-- A group holding one non-empty table named class___X, whose decoded object
type is __X. -/
def c8Group : RGroup := ⟨[("class___X", { key := 0, cols := [], rows := 1 })]⟩

/-- C8 counterexample: the non-empty table class___X is invisible to
is_empty, but schema_from_group produces an entry for it, refuting the claim
that a decoded object type beginning with two underscores is excluded from
both. -/
theorem C8_counterexample :
    schema_from_group c8Group = ["__X"] ∧ is_empty c8Group = true := by
  constructor <;> decide

/-- A Property of an in-memory Schema (spec section 3): the fields read by
rename_property and apply_post_migration_changes.  Properties read from disk
are represented by Column directly. -/
structure Property where
  name : String
  type : PropType
  objectType : String
  columnKey : Nat
deriving DecidableEq, Repr

/-- An ObjectSchema of an in-memory Schema: its name and its persisted
properties (computed properties are never consulted by the code under the
claims; ObjectSchema itself lives in object_schema.cpp, outside src/, and is
modelled from the spec section 3). -/
structure ObjectSchema where
  name : String
  persistedProperties : List Property
deriving DecidableEq, Repr

/-- A Schema: an ordered collection of ObjectSchema keyed by name (spec
section 3). -/
abbrev Schema := List ObjectSchema

/-- ObjectSchema::property_for_name.  Modelled from the spec: the lookup by
property name (object_schema.cpp is not part of src/). -/
def ObjectSchema.property_for_name (os : ObjectSchema) (name : String) : Option Property :=
  os.persistedProperties.find? fun p => p.name == name

/-- Schema::find by object-type name.  Modelled from the spec: Schema is
keyed by name and supports find(name) (schema.cpp is not part of src/). -/
def Schema.find (s : Schema) (name : String) : Option ObjectSchema :=
  s.find? fun os => os.name == name

/-- Property lookup on an on-disk table, standing for
ObjectSchema(group, object_type, table_key).property_for_name: the
ObjectSchema read from disk has one property per column carrying the
column's name, type, nullability, link target and column key.  Modelled from
the spec: a Schema value is read from disk per spec section 3 (the
constructor lives in object_schema.cpp, outside src/). -/
def Table.property_for_name (t : Table) (name : String) : Option Column :=
  t.cols.find? fun c => c.name == name

/-- Table::remove_column. -/
def Table.remove_column (t : Table) (k : Nat) : Table :=
  { t with cols := t.cols.filter fun c => c.key != k }

/-- Table::rename_column. -/
def Table.rename_column (t : Table) (k : Nat) (new_name : String) : Table :=
  { t with cols := t.cols.map fun c => if c.key = k then { c with name := new_name } else c }

/-- Table::set_nullability.  Modelled from the spec: nullability toggling is
part of the storage-engine interface (spec section 1); the engine returns
the column key of the toggled column, modelled as toggling in place with
the key preserved. -/
def Table.set_nullability (t : Table) (k : Nat) (nullable : Bool) : Table :=
  { t with cols := t.cols.map fun c =>
      if c.key = k then { c with type := { c.type with nullable := nullable } } else c }

/-- RemoveProperty handler of apply_post_migration_changes
(object_store.cpp:788-796): throw InvalidProperty when the initial schema is
non-empty and does not contain the property being removed, else remove the
column.  The C++ dereferences the result of initial_schema.find without a
check; a non-empty initial schema lacking the object altogether is outside
defined behaviour and is modelled as the property lookup failing.  A missing
table (null TableRef dereference in the C++) is modelled as a no-op; the
theorems require the table to exist. -/
def post_migration_remove_property (group : RGroup) (initial_schema : Schema)
    (object_name property_name : String) (column_key : Nat) : Except SchemaError RGroup :=
  if initial_schema ≠ [] ∧
      ((Schema.find initial_schema object_name).bind
        (fun os => os.property_for_name property_name)) = none then
    .error ⟨.InvalidProperty,
      ["Renamed property \x27" ++ object_name ++ "." ++ property_name ++
        "\x27 does not exist."]⟩
  else
    match group.table_for_object_type object_name with
    | none => .ok group
    | some table =>
        .ok (group.update_table (table_name_for_object_type object_name)
          (table.remove_column column_key))

theorem Schema.find_ne_nil {s : Schema} {n : String} {os : ObjectSchema}
    (h : Schema.find s n = some os) : s ≠ [] := by
  intro he
  subst he
  cases h

/-- C5 (corrected): in apply_post_migration_changes, a RemoveProperty change
for object T and property p removes the column when initial_schema is empty,
and also when initial_schema is non-empty and its entry for T contains a
property named p; only when initial_schema is non-empty and its entry for T
lacks p does it fail, with an InvalidProperty error whose message is
Renamed property T.p does not exist (with T.p quoted). -/
theorem C5_post_migration_remove_property (g : RGroup) (sch : Schema) (o p : String)
    (k : Nat) (table : Table) (ht : g.table_for_object_type o = some table) :
    (sch = [] → post_migration_remove_property g sch o p k =
      .ok (g.update_table (table_name_for_object_type o) (table.remove_column k))) ∧
    (∀ os, Schema.find sch o = some os →
      ((os.property_for_name p).isSome = true →
        post_migration_remove_property g sch o p k =
          .ok (g.update_table (table_name_for_object_type o) (table.remove_column k))) ∧
      (os.property_for_name p = none →
        post_migration_remove_property g sch o p k =
          .error ⟨.InvalidProperty,
            ["Renamed property \x27" ++ o ++ "." ++ p ++ "\x27 does not exist."]⟩)) := by
  constructor
  · intro he
    subst he
    simp [post_migration_remove_property, ht]
  · intro os hos
    constructor
    · intro hsome
      rcases Option.isSome_iff_exists.mp hsome with ⟨pr, hpr⟩
      simp [post_migration_remove_property, hos, hpr, ht]
    · intro hnone
      have hne : sch ≠ [] := Schema.find_ne_nil hos
      simp [post_migration_remove_property, hos, hnone, hne]

/-- Decidable equality for Except results, used by concrete witnesses. -/
instance {e a : Type} [DecidableEq e] [DecidableEq a] : DecidableEq (Except e a) :=
  fun x y =>
    match x, y with
    | .ok v, .ok w =>
      if h : v = w then isTrue (by rw [h]) else isFalse (by intro hh; cases hh; exact h rfl)
    | .ok _, .error _ => isFalse (by intro hh; cases hh)
    | .error _, .ok _ => isFalse (by intro hh; cases hh)
    | .error v, .error w =>
      if h : v = w then isTrue (by rw [h]) else isFalse (by intro hh; cases hh; exact h rfl)

/-- Concrete column for the C5 witness: an int column p with column key 2. -/
def c5Col : Column :=
  { name := "p", key := 2, type := { base := BaseType.int, nullable := false },
    objectType := "" }

/-- Concrete table for the C5 witness: class_T with the single column p and
one object. -/
def c5Table : Table := { key := 0, cols := [c5Col], rows := 1 }

/-- Concrete group for the C5 witness and counterexample. -/
def c5Group : RGroup := ⟨[("class_T", c5Table)]⟩

/-- Initial-schema entry for T that contains the property p. -/
def c5OS : ObjectSchema :=
  { name := "T", persistedProperties :=
      [{ name := "p", type := { base := BaseType.int, nullable := false },
         objectType := "", columnKey := 2 }] }

/-- Initial-schema entry for T without the property p. -/
def c5OSempty : ObjectSchema := { name := "T", persistedProperties := [] }

/-- Witness for C5 at concrete inputs: the empty-initial-schema branch, the
contained-property branch, and the error branch. -/
theorem C5_witness :
    post_migration_remove_property c5Group [] "T" "p" 2 =
      .ok (c5Group.update_table "class_T" (c5Table.remove_column 2)) ∧
    post_migration_remove_property c5Group [c5OS] "T" "p" 2 =
      .ok (c5Group.update_table "class_T" (c5Table.remove_column 2)) ∧
    post_migration_remove_property c5Group [c5OSempty] "T" "p" 2 =
      .error ⟨.InvalidProperty, ["Renamed property \x27T.p\x27 does not exist."]⟩ := by
  have h1 := C5_post_migration_remove_property c5Group [] "T" "p" 2 c5Table (by decide)
  have h2 := C5_post_migration_remove_property c5Group [c5OS] "T" "p" 2 c5Table (by decide)
  have h3 := C5_post_migration_remove_property c5Group [c5OSempty] "T" "p" 2 c5Table
    (by decide)
  refine ⟨?_, ?_, ?_⟩
  · rw [h1.1 rfl]
    decide
  · rw [(h2.2 c5OS (by decide)).1 (by decide)]
    decide
  · rw [(h3.2 c5OSempty (by decide)).2 (by decide)]
    decide

/-- C5 counterexample: with an empty initial schema the code removes the
column and returns normally, refuting the claim that an empty initial_schema
makes RemoveProperty fail with an InvalidProperty error. -/
theorem C5_counterexample :
    post_migration_remove_property c5Group [] "T" "p" 2 =
      .ok ⟨[("class_T", { key := 0, cols := [], rows := 1 })]⟩ := by
  decide

/-- Rendering of a base type for error messages.  Modelled from the spec:
Property::type_string lives in property.cpp, outside src/; only the identity
of the message matters to the claims. -/
def BaseType.render : BaseType → String
  | .int => "int"
  | .bool => "bool"
  | .float => "float"
  | .double => "double"
  | .string => "string"
  | .date => "date"
  | .data => "data"
  | .objectId => "object id"
  | .decimal => "decimal"
  | .uuid => "uuid"
  | .mixed => "mixed"
  | .object => "object"
  | .linkingObjects => "linking objects"

/-- Rendering of a property type for error messages (optional types carry a
question mark).  Modelled from the spec, as for BaseType.render. -/
def PropType.typeString (t : PropType) : String :=
  t.base.render ++ (if t.nullable then "?" else "")

/-- The column-key patch at object_store.cpp:1072-1074: if the target object
schema declares new_name, its column_key becomes the renamed column's key.
The C++ patches through a pointer into the found object schema; names are
unique within a schema, so patching every matching entry is equivalent. -/
def patchColumnKey (s : Schema) (object_type prop_name : String) (k : Nat) : Schema :=
  s.map fun os =>
    if os.name == object_type then
      { os with persistedProperties := os.persistedProperties.map fun p =>
          if p.name == prop_name then { p with columnKey := k } else p }
    else os

/-- ObjectStore::rename_property (object_store.cpp:1012-1082).  The C++
mutates the group and the target schema through references; the embedding
returns the updated pair.  The type comparison of check 6 uses the
PropertyType equality of property.hpp (outside src/), which masks the flag
bits; modelled from the spec, whose check 6 compares types and link targets
while check 7 handles nullability separately, so base types are compared. -/
def rename_property (group : RGroup) (target_schema : Schema)
    (object_type old_name new_name : String) : Except SchemaError (RGroup × Schema) :=
  match group.table_for_object_type object_type with
  | none =>
      .error ⟨.NoSuchTable,
        ["Cannot rename properties for type \x27" ++ object_type ++
          "\x27 because it does not exist."]⟩
  | some table =>
    match Schema.find target_schema object_type with
    | none =>
        .error ⟨.NoSuchTable,
          ["Cannot rename properties for type \x27" ++ object_type ++
            "\x27 because it has been removed from the Realm."]⟩
    | some target_object_schema =>
      if (target_object_schema.property_for_name old_name).isSome then
        .error ⟨.IllegalOperation,
          ["Cannot rename property \x27" ++ object_type ++ "." ++ old_name ++
            "\x27 to \x27" ++ new_name ++ "\x27 because the source property still exists."]⟩
      else
        match table.property_for_name old_name with
        | none =>
            .error ⟨.InvalidProperty,
              ["Cannot rename property \x27" ++ object_type ++ "." ++ old_name ++
                "\x27 because it does not exist."]⟩
        | some old_property =>
          match table.property_for_name new_name with
          | none =>
              .ok (group.update_table (table_name_for_object_type object_type)
                    (table.rename_column old_property.key new_name), target_schema)
          | some new_property =>
            if old_property.type.base ≠ new_property.type.base ∨
                old_property.objectType ≠ new_property.objectType then
              .error ⟨.IllegalOperation,
                ["Cannot rename property \x27" ++ object_type ++ "." ++ old_name ++
                  "\x27 to \x27" ++ new_name ++
                  "\x27 because it would change from type \x27" ++
                  old_property.type.typeString ++ "\x27 to \x27" ++
                  new_property.type.typeString ++ "\x27."]⟩
            else if old_property.type.nullable = true ∧ new_property.type.nullable = false then
              .error ⟨.IllegalOperation,
                ["Cannot rename property \x27" ++ object_type ++ "." ++ old_name ++
                  "\x27 to \x27" ++ new_name ++
                  "\x27 because it would change from optional to required."]⟩
            else
              let table2 := (table.remove_column new_property.key).rename_column
                old_property.key new_name
              let schema1 := patchColumnKey target_schema object_type new_name old_property.key
              let table3 :=
                if new_property.type.nullable = true ∧ old_property.type.nullable = false then
                  table2.set_nullability old_property.key true
                else table2
              .ok (group.update_table (table_name_for_object_type object_type) table3, schema1)

/-- Projection of a rename_property result onto its error code. -/
def renameErrKind (r : Except SchemaError (RGroup × Schema)) : Option ErrorCode :=
  match r with
  | .ok _ => none
  | .error e => some e.code

/-- C7: rename_property checks its preconditions in the stated order, each
failure raising a distinct error kind: (1) missing table for the type gives
NoSuchTable; (2) type absent from the target schema gives NoSuchTable;
(3) the target schema still declaring old_name gives IllegalOperation;
(4) the on-disk table lacking old_name gives InvalidProperty; (5) if the
on-disk table lacks new_name the column is renamed and the call returns;
(6) a type or link-target mismatch between old_name and new_name gives
IllegalOperation; (7) a nullability decrease gives IllegalOperation, while
required-to-optional succeeds, reuses the old column and widens its
nullability in place. -/
theorem C7_rename_property_check_order (g : RGroup) (ts : Schema) (ot a b : String) :
    (g.table_for_object_type ot = none →
      renameErrKind (rename_property g ts ot a b) = some ErrorCode.NoSuchTable) ∧
    (∀ table, g.table_for_object_type ot = some table →
      Schema.find ts ot = none →
      renameErrKind (rename_property g ts ot a b) = some ErrorCode.NoSuchTable) ∧
    (∀ table tos, g.table_for_object_type ot = some table →
      Schema.find ts ot = some tos →
      (tos.property_for_name a).isSome = true →
      renameErrKind (rename_property g ts ot a b) = some ErrorCode.IllegalOperation) ∧
    (∀ table tos, g.table_for_object_type ot = some table →
      Schema.find ts ot = some tos →
      tos.property_for_name a = none →
      table.property_for_name a = none →
      renameErrKind (rename_property g ts ot a b) = some ErrorCode.InvalidProperty) ∧
    (∀ table tos oldp, g.table_for_object_type ot = some table →
      Schema.find ts ot = some tos →
      tos.property_for_name a = none →
      table.property_for_name a = some oldp →
      table.property_for_name b = none →
      rename_property g ts ot a b =
        .ok (g.update_table (table_name_for_object_type ot)
          (table.rename_column oldp.key b), ts)) ∧
    (∀ table tos oldp newp, g.table_for_object_type ot = some table →
      Schema.find ts ot = some tos →
      tos.property_for_name a = none →
      table.property_for_name a = some oldp →
      table.property_for_name b = some newp →
      (oldp.type.base ≠ newp.type.base ∨ oldp.objectType ≠ newp.objectType) →
      renameErrKind (rename_property g ts ot a b) = some ErrorCode.IllegalOperation) ∧
    (∀ table tos oldp newp, g.table_for_object_type ot = some table →
      Schema.find ts ot = some tos →
      tos.property_for_name a = none →
      table.property_for_name a = some oldp →
      table.property_for_name b = some newp →
      oldp.type.base = newp.type.base → oldp.objectType = newp.objectType →
      oldp.type.nullable = true → newp.type.nullable = false →
      renameErrKind (rename_property g ts ot a b) = some ErrorCode.IllegalOperation) ∧
    (∀ table tos oldp newp, g.table_for_object_type ot = some table →
      Schema.find ts ot = some tos →
      tos.property_for_name a = none →
      table.property_for_name a = some oldp →
      table.property_for_name b = some newp →
      oldp.type.base = newp.type.base → oldp.objectType = newp.objectType →
      oldp.type.nullable = false → newp.type.nullable = true →
      rename_property g ts ot a b =
        .ok (g.update_table (table_name_for_object_type ot)
          (((table.remove_column newp.key).rename_column oldp.key b).set_nullability
            oldp.key true),
          patchColumnKey ts ot b oldp.key)) := by
  refine ⟨?_, ?_, ?_, ?_, ?_, ?_, ?_, ?_⟩
  · intro h1
    simp [rename_property, renameErrKind, h1]
  · intro table h1 h2
    simp [rename_property, renameErrKind, h1, h2]
  · intro table tos h1 h2 h3
    simp [rename_property, renameErrKind, h1, h2, h3]
  · intro table tos h1 h2 h3 h4
    simp [rename_property, renameErrKind, h1, h2, h3, h4]
  · intro table tos oldp h1 h2 h3 h4 h5
    simp [rename_property, renameErrKind, h1, h2, h3, h4, h5]
  · intro table tos oldp newp h1 h2 h3 h4 h5 hmis
    simp only [rename_property, h1, h2, h3, h4, h5, Option.isSome_none, Bool.false_eq_true,
      if_false]
    rw [if_pos hmis]
    rfl
  · intro table tos oldp newp h1 h2 h3 h4 h5 hb hl hn1 hn2
    simp only [rename_property, h1, h2, h3, h4, h5, Option.isSome_none, Bool.false_eq_true,
      if_false]
    rw [if_neg (by simp [hb, hl]), if_pos ⟨hn1, hn2⟩]
    rfl
  · intro table tos oldp newp h1 h2 h3 h4 h5 hb hl hn1 hn2
    simp only [rename_property, h1, h2, h3, h4, h5, Option.isSome_none, Bool.false_eq_true,
      if_false]
    rw [if_neg (by simp [hb, hl]), if_neg (by simp [hn1]), if_pos ⟨hn2, hn1⟩]

theorem find?_update_list (l : List (String × Table)) (n : String) (t : Table)
    (h : (l.find? fun p => p.1 == n).isSome) :
    ((l.map fun p => if p.1 == n then (n, t) else p).find? fun p => p.1 == n) =
      some (n, t) := by
  induction l with
  | nil => simp at h
  | cons nt rest ih =>
    by_cases hn : (nt.1 == n) = true
    · simp only [List.map_cons, if_pos hn]
      exact List.find?_cons_of_pos _ (by simp)
    · have hn' : (nt.1 == n) = false := by simpa using hn
      simp only [List.map_cons, hn', List.find?_cons]
      simp only [Bool.false_eq_true, if_false, hn']
      apply ih
      simpa [List.find?_cons, hn'] using h

theorem RGroup.get_table_update {g : RGroup} {n : String} {t0 : Table} (t : Table)
    (h : g.get_table n = some t0) : (g.update_table n t).get_table n = some t := by
  rcases g with ⟨l⟩
  have hs : (l.find? fun p => p.1 == n).isSome := by
    simp only [RGroup.get_table, Option.map_eq_some'] at h
    rcases h with ⟨x, hx, _⟩
    simp [hx]
  simp only [RGroup.update_table, RGroup.get_table, find?_update_list l n t hs, Option.map_some']

/-- C6: when rename_property succeeds on the reuse path (both columns exist
on disk, base types and link targets match, nullability does not decrease)
the resulting on-disk table no longer holds any column with the handle of
the column originally named b, the column originally named a (same storage
handle, same data) is now named b, and the target-schema property T.b has
its column_key patched to that handle. -/
theorem C6_rename_property_reuse (g : RGroup) (ts : Schema) (ot a b : String)
    (table : Table) (tos : ObjectSchema) (oldp newp : Column)
    (h1 : g.table_for_object_type ot = some table)
    (h2 : Schema.find ts ot = some tos)
    (h3 : tos.property_for_name a = none)
    (h4 : table.property_for_name a = some oldp)
    (h5 : table.property_for_name b = some newp)
    (hb : oldp.type.base = newp.type.base)
    (hl : oldp.objectType = newp.objectType)
    (hnn : ¬(oldp.type.nullable = true ∧ newp.type.nullable = false))
    (hk : (table.cols.map Column.key).Nodup)
    (hab : a ≠ b)
    (htp : (tos.property_for_name b).isSome = true) :
    ∃ g1 ts1 t1,
      rename_property g ts ot a b = .ok (g1, ts1) ∧
      g1.table_for_object_type ot = some t1 ∧
      (∀ c ∈ t1.cols, c.key ≠ newp.key) ∧
      (∃ c ∈ t1.cols, c.key = oldp.key ∧ c.name = b) ∧
      (∃ os1 p1, Schema.find ts1 ot = some os1 ∧
        os1.property_for_name b = some p1 ∧ p1.columnKey = oldp.key) := by
  have h4' : List.find? (fun c => c.name == a) table.cols = some oldp := h4
  have h5' : List.find? (fun c => c.name == b) table.cols = some newp := h5
  have holdname : oldp.name = a := by simpa using List.find?_some h4'
  have hnewname : newp.name = b := by simpa using List.find?_some h5'
  have holdmem : oldp ∈ table.cols := List.mem_of_find?_eq_some h4'
  have hnewmem : newp ∈ table.cols := List.mem_of_find?_eq_some h5'
  have hpne : oldp ≠ newp := by
    intro he
    exact hab (holdname ▸ hnewname ▸ congrArg Column.name he)
  have keyne : oldp.key ≠ newp.key := by
    intro he
    exact hpne (List.inj_on_of_nodup_map hk holdmem hnewmem he)
  -- the table produced by the reuse path (with or without nullability widening)
  set t3 : Table :=
    (if newp.type.nullable = true ∧ oldp.type.nullable = false then
      ((table.remove_column newp.key).rename_column oldp.key b).set_nullability oldp.key true
    else
      (table.remove_column newp.key).rename_column oldp.key b) with ht3
  have hrun : rename_property g ts ot a b =
      .ok (g.update_table (table_name_for_object_type ot) t3,
        patchColumnKey ts ot b oldp.key) := by
    simp only [rename_property, h1, h2, h3, h4, h5, Option.isSome_none, Bool.false_eq_true,
      if_false]
    rw [if_neg (by simp [hb, hl]), if_neg hnn]
  refine ⟨_, _, t3, hrun, RGroup.get_table_update t3 h1, ?_, ?_, ?_⟩
  · -- no column of t3 carries newp.key
    have hkey : ∀ c ∈ t3.cols, c.key ≠ newp.key := by
      have hcols : ∀ c ∈ ((table.remove_column newp.key).rename_column oldp.key b).cols,
          c.key ≠ newp.key := by
        intro c hc
        rcases List.mem_map.mp hc with ⟨c1, hc1, rfl⟩
        have hf := (List.mem_filter.mp hc1).2
        have : c1.key ≠ newp.key := by simpa using hf
        split <;> simpa
      rw [ht3]
      split
      · intro c hc
        rcases List.mem_map.mp hc with ⟨c1, hc1, rfl⟩
        have := hcols c1 hc1
        split <;> simpa
      · exact hcols
    exact hkey
  · -- the column with oldp.key is now named b
    have hmem1 : oldp ∈ (table.remove_column newp.key).cols := by
      apply List.mem_filter.mpr
      exact ⟨holdmem, by simpa using keyne⟩
    have hmem2 : ({ oldp with name := b } : Column) ∈
        ((table.remove_column newp.key).rename_column oldp.key b).cols :=
      List.mem_map.mpr ⟨oldp, hmem1, by simp⟩
    rw [ht3]
    split
    · refine ⟨{ oldp with name := b, type := { oldp.type with nullable := true } },
        ?_, rfl, rfl⟩
      exact List.mem_map.mpr ⟨{ oldp with name := b }, hmem2, by simp⟩
    · exact ⟨{ oldp with name := b }, hmem2, rfl, rfl⟩
  · -- the target schema property T.b now carries oldp.key
    rcases Option.isSome_iff_exists.mp htp with ⟨pr, hpr⟩
    have hpr' : List.find? (fun p => p.name == b) tos.persistedProperties = some pr := hpr
    have h2' : List.find? (fun os => os.name == ot) ts = some tos := h2
    have hprname : pr.name = b := by simpa using List.find?_some hpr'
    have htos : (tos.name == ot) = true := by
      have : tos.name = ot := by simpa using List.find?_some h2'
      simp [this]
    have hnamepres : ∀ os : ObjectSchema,
        ((fun os => os.name == ot) ∘ (fun os =>
          if os.name == ot then
            { os with persistedProperties := os.persistedProperties.map fun p =>
                if p.name == b then { p with columnKey := oldp.key } else p }
          else os)) os = (os.name == ot) := by
      intro os
      by_cases hos : (os.name == ot) = true
      · simp [Function.comp, hos]
      · simp [Function.comp, hos]
    have hfind : Schema.find (patchColumnKey ts ot b oldp.key) ot =
        some { tos with persistedProperties := tos.persistedProperties.map fun p =>
            if p.name == b then { p with columnKey := oldp.key } else p } := by
      unfold patchColumnKey Schema.find
      rw [List.find?_map, funext hnamepres]
      unfold Schema.find at h2
      rw [h2, Option.map_some', if_pos htos]
    refine ⟨_, { pr with columnKey := oldp.key }, hfind, ?_, rfl⟩
    show ObjectSchema.property_for_name _ b = _
    unfold ObjectSchema.property_for_name at hpr ⊢
    have hppres : ∀ p : Property,
        ((fun p => p.name == b) ∘ (fun p =>
          if p.name == b then { p with columnKey := oldp.key } else p)) p =
          (p.name == b) := by
      intro p
      by_cases hp : (p.name == b) = true
      · simp [Function.comp, hp]
      · simp [Function.comp, hp]
    show List.find? _ (tos.persistedProperties.map _) = _
    rw [List.find?_map, funext hppres, hpr, Option.map_some',
      if_pos (by simp [hprname])]

/-- Concrete on-disk column a for the rename witnesses: int, required. -/
def c7ColA : Column :=
  { name := "a", key := 1, type := { base := BaseType.int, nullable := false },
    objectType := "" }

/-- Concrete on-disk column b for the rename witnesses: int, optional. -/
def c7ColB : Column :=
  { name := "b", key := 2, type := { base := BaseType.int, nullable := true },
    objectType := "" }

/-- Concrete table class_T holding columns a and b. -/
def c7Table : Table := { key := 0, cols := [c7ColA, c7ColB], rows := 0 }

/-- Concrete group for the rename witnesses. -/
def c7Group : RGroup := ⟨[("class_T", c7Table)]⟩

/-- Concrete target object schema declaring only b (with a stale column
key). -/
def c7OS : ObjectSchema :=
  { name := "T", persistedProperties :=
      [{ name := "b", type := { base := BaseType.int, nullable := true },
         objectType := "", columnKey := 9 }] }

/-- Concrete target schema for the rename witnesses. -/
def c7TS : Schema := [c7OS]

/-- Witness for C7 at concrete inputs: a missing table raises NoSuchTable,
and the full reuse path with nullability widening succeeds. -/
theorem C7_witness :
    renameErrKind (rename_property ⟨[]⟩ [] "T" "a" "b") = some ErrorCode.NoSuchTable ∧
    rename_property c7Group c7TS "T" "a" "b" =
      .ok (c7Group.update_table (table_name_for_object_type "T")
        (((c7Table.remove_column 2).rename_column 1 "b").set_nullability 1 true),
        patchColumnKey c7TS "T" "b" 1) :=
  ⟨(C7_rename_property_check_order ⟨[]⟩ [] "T" "a" "b").1 (by decide),
    (C7_rename_property_check_order c7Group c7TS "T" "a" "b").2.2.2.2.2.2.2
      c7Table c7OS c7ColA c7ColB (by decide) (by decide) (by decide) (by decide)
      (by decide) rfl rfl rfl rfl⟩

/-- Witness for C6 at concrete inputs: the reuse path on class_T with
columns a and b. -/
theorem C6_witness :
    ∃ g1 ts1 t1,
      rename_property c7Group c7TS "T" "a" "b" = .ok (g1, ts1) ∧
      g1.table_for_object_type "T" = some t1 ∧
      (∀ c ∈ t1.cols, c.key ≠ c7ColB.key) ∧
      (∃ c ∈ t1.cols, c.key = c7ColA.key ∧ c.name = "b") ∧
      (∃ os1 p1, Schema.find ts1 "T" = some os1 ∧
        os1.property_for_name "b" = some p1 ∧ p1.columnKey = c7ColA.key) :=
  C6_rename_property_reuse c7Group c7TS "T" "a" "b" c7Table c7OS c7ColA c7ColB
    (by decide) (by decide) (by decide) (by decide) (by decide) rfl rfl
    (by decide) (by decide) (by decide) (by decide)

/-- State of an AsyncOpenTask visible to claim C9: whether m_session and
m_coordinator are set, and how many times the user AsyncOpenCallback has
been invoked (async_open_task.cpp). -/
structure TaskState where
  session : Bool
  coordinator : Bool
  callbackCount : Nat
deriving DecidableEq, Repr

/-- Atomic steps of an AsyncOpenTask execution, at the granularity of the
lock-protected regions of async_open_task.cpp: downloadEntry is the entry
check of the wait_for_download_completion continuation (lines 49-56, which
also moves m_coordinator into a local); migrateEntry, uploadEntry and
pauseEntry are the entry checks at lines 179-183, 212-216 and 226-230;
recreate is the file-deletion and reopen block at lines 238-247, which runs
under its own lock acquisition after the pause continuation's entry check
and re-establishes m_session without re-checking it; completeStep is
async_open_complete (lines 148-174), which returns if the session is null
and otherwise nulls it and invokes the user callback exactly once (on both
the ok and the error branch); cancelStep is cancel (lines 68-91), which may
be interleaved anywhere and invokes no user callback. -/
inductive Step
  | downloadEntry
  | migrateEntry
  | uploadEntry
  | pauseEntry
  | recreate
  | completeStep
  | cancelStep
deriving DecidableEq, Repr

/-- The continuation entry checks: the steps that begin by testing m_session
under the lock and return when it is null. -/
def isEntryStep : Step → Bool
  | .downloadEntry => true
  | .migrateEntry => true
  | .uploadEntry => true
  | .pauseEntry => true
  | .completeStep => true
  | _ => false

/-- One step of an execution.  The Bool is the aborted flag: a failed entry
check returns from the continuation, so no later chain step of that
execution runs; cancel is not part of the chain and still runs.  Only
completeStep with a live session invokes the user callback. -/
def runStep : TaskState × Bool → Step → TaskState × Bool
  | (s, ab), .cancelStep =>
      (if s.session then { s with session := false, coordinator := false } else s, ab)
  | (s, ab), .downloadEntry =>
      if ab then (s, ab)
      else if s.session then ({ s with coordinator := false }, false) else (s, true)
  | (s, ab), .migrateEntry =>
      if ab then (s, ab) else if s.session then (s, false) else (s, true)
  | (s, ab), .uploadEntry =>
      if ab then (s, ab) else if s.session then (s, false) else (s, true)
  | (s, ab), .pauseEntry =>
      if ab then (s, ab) else if s.session then (s, false) else (s, true)
  | (s, ab), .recreate =>
      if ab then (s, ab) else ({ s with session := true }, false)
  | (s, ab), .completeStep =>
      if ab then (s, ab)
      else if s.session then
        ({ s with session := false, callbackCount := s.callbackCount + 1 }, false)
      else (s, true)

/-- An execution: the chain steps in program order with any number of cancel
steps interleaved, folded from a starting state. -/
def runTrace (s : TaskState) (tr : List Step) : TaskState × Bool :=
  tr.foldl runStep (s, false)

/-- The state of a freshly started task: session and coordinator live, no
callback delivered. -/
def initialTask : TaskState :=
  { session := true, coordinator := true, callbackCount := 0 }

/-- The continuation chains of async_open_task.cpp, one per control path:
download failure; no pending migration or missing subscription initializer
or subscription wait (all of which funnel into one async_open_complete);
upload failure; pause failure; and the full schema-migration path through
the recreate block.  Every path ends in exactly one async_open_complete. -/
def validChain (tr : List Step) : Bool :=
  tr == [Step.downloadEntry, Step.completeStep] ||
  tr == [Step.downloadEntry, Step.migrateEntry, Step.completeStep] ||
  tr == [Step.downloadEntry, Step.migrateEntry, Step.uploadEntry, Step.completeStep] ||
  tr == [Step.downloadEntry, Step.migrateEntry, Step.uploadEntry, Step.pauseEntry,
    Step.completeStep] ||
  tr == [Step.downloadEntry, Step.migrateEntry, Step.uploadEntry, Step.pauseEntry,
    Step.recreate, Step.completeStep]

theorem runStep_callbackCount (s : TaskState) (ab : Bool) (st : Step) :
    (runStep (s, ab) st).1.callbackCount ≤
      s.callbackCount + (if st = Step.completeStep then 1 else 0) := by
  cases st <;> simp [runStep] <;> split_ifs <;> simp

theorem runTrace_callbackCount (tr : List Step) :
    ∀ (s : TaskState) (ab : Bool),
      (tr.foldl runStep (s, ab)).1.callbackCount ≤
        s.callbackCount + tr.countP (fun st => st == Step.completeStep) := by
  induction tr with
  | nil => intro s ab; simp
  | cons st rest ih =>
    intro s ab
    rcases hr : runStep (s, ab) st with ⟨s1, ab1⟩
    have h1 : s1.callbackCount ≤ s.callbackCount + (if st = Step.completeStep then 1 else 0) := by
      have := runStep_callbackCount s ab st
      rwa [hr] at this
    have h2 := ih s1 ab1
    simp only [List.foldl_cons, hr, List.countP_cons]
    by_cases hst : st = Step.completeStep <;> simp [hst] at h1 ⊢ <;> omega

/-- C9 (corrected): the user AsyncOpenCallback is invoked at most once on
every interleaving of a continuation chain with cancels; on every complete
chain without a cancel it is invoked exactly once and the session ends up
null; the entry check of every continuation invokes nothing and returns when
the session has been nulled; cancel itself never invokes the callback; but a
cancel landing between the pause continuation's entry check and the
recreate block of the schema-migration path does not suppress the final
delivery, because the recreate block re-establishes the session without
re-checking it. -/
theorem C9_async_open_callback_discipline :
    (∀ tr : List Step, tr.countP (fun st => st == Step.completeStep) ≤ 1 →
      (runTrace initialTask tr).1.callbackCount ≤ 1) ∧
    (∀ tr : List Step, validChain tr = true →
      (runTrace initialTask tr).1.callbackCount = 1 ∧
        (runTrace initialTask tr).1.session = false) ∧
    (∀ (s : TaskState) (st : Step), s.session = false → isEntryStep st = true →
      runStep (s, false) st = (s, true)) ∧
    (∀ (s : TaskState) (ab : Bool),
      (runStep (s, ab) Step.cancelStep).1.callbackCount = s.callbackCount) ∧
    (runTrace initialTask [Step.downloadEntry, Step.migrateEntry, Step.uploadEntry,
      Step.pauseEntry, Step.cancelStep, Step.recreate,
      Step.completeStep]).1.callbackCount = 1 := by
  refine ⟨?_, ?_, ?_, ?_, by decide⟩
  · intro tr htr
    have h := runTrace_callbackCount tr initialTask false
    have h0 : initialTask.callbackCount = 0 := rfl
    unfold runTrace
    omega
  · intro tr htr
    simp only [validChain, Bool.or_eq_true, beq_iff_eq] at htr
    rcases htr with (((rfl | rfl) | rfl) | rfl) | rfl <;> constructor <;> decide
  · intro s st hs hst
    cases st <;> simp_all [runStep, isEntryStep]
  · intro s ab
    simp [runStep]
    split <;> simp

/-- Witness for C9 at concrete inputs: a cancelled trace stays at most one,
the happy-path chain delivers exactly once and nulls the session, a
continuation entry on a nulled session swallows, and cancel invokes no
callback. -/
theorem C9_witness :
    (runTrace initialTask [Step.cancelStep, Step.downloadEntry]).1.callbackCount ≤ 1 ∧
    ((runTrace initialTask
        [Step.downloadEntry, Step.migrateEntry, Step.completeStep]).1.callbackCount = 1 ∧
      (runTrace initialTask
        [Step.downloadEntry, Step.migrateEntry, Step.completeStep]).1.session = false) ∧
    runStep ({ session := false, coordinator := false, callbackCount := 0 }, false)
        Step.downloadEntry =
      ({ session := false, coordinator := false, callbackCount := 0 }, true) ∧
    (runStep ({ session := true, coordinator := true, callbackCount := 0 }, false)
        Step.cancelStep).1.callbackCount = 0 :=
  ⟨C9_async_open_callback_discipline.1 [Step.cancelStep, Step.downloadEntry] (by decide),
    C9_async_open_callback_discipline.2.1
      [Step.downloadEntry, Step.migrateEntry, Step.completeStep] (by decide),
    C9_async_open_callback_discipline.2.2.1
      { session := false, coordinator := false, callbackCount := 0 }
      Step.downloadEntry rfl rfl,
    C9_async_open_callback_discipline.2.2.2.1
      { session := true, coordinator := true, callbackCount := 0 } false⟩

/-- C9 counterexample: after cancel, the force-close-triggered download
continuation and the async_open_complete it would reach deliver nothing, so
the terminal force-close-after-cancel event produces zero user-callback
invocations, refuting the claim that the callback is invoked exactly once
when that terminal event is delivered. -/
theorem C9_counterexample :
    (runTrace initialTask
      [Step.cancelStep, Step.downloadEntry, Step.completeStep]).1.callbackCount = 0 := by
  decide
